import Mathlib

/-!
Verification development for the travel-itinerary planner backend.

The definitions below are shallow embeddings of the TypeScript sources:
  - `src/types/checklist.ts`   (checklist record, completeness)
  - `src/ai-service.ts`        (AI responder with deterministic mock fallback)
  - `src/services/chat.ts`     (conversation engine: merge, itinerary synthesis)
  - `src/handlers/chat-handler.ts` (session reset endpoint)
  - `src/nlp-parser.ts` and `src/nlp-parser-chrono.ts` (budget parsing)

Modelling conventions:
  - A JavaScript value stored in a checklist field is `JValue` (string, integer
    number, or string list); `null`/`undefined`/key-absent are all `Option.none`
    (the code only distinguishes them through `=== null || === undefined`
    checks, which collapse to `Option.isNone` here).
  - JS `Math.round` on the non-negative rationals produced here is exact
    half-up rounding, modelled as `Int.floor (q + 1/2)` (resp. its `Nat`
    division form); the floating-point evaluation agrees on every value these
    functions produce for integer inputs in the parsers' range.
  - Async/IO (fetch, persistence) is modelled by passing the outcome of the
    external call as data.
-/

namespace Travel

/-- A dynamic JS value as it can appear in a checklist field
(`string | number | string[]`); numbers extracted by the parsers and
merged by the engine are integers. -/
inductive JValue where
  | str (s : String)
  | num (n : Int)
  | list (xs : List String)
deriving DecidableEq, Repr

/-- The 18 checklist fields of `TripChecklist` (src/types/checklist.ts). -/
inductive Field where
  | startDate | endDate | travelDays | totalBudget | startingCity
  | tripTheme | groupType | transportMode | stayPreference
  | adventureLevel | foodPreference | comfortLevel | schedulePreference
  | weatherPreference | safetyNeeds | specialRequirements
  | avoidPlaces | visitedPlaces
deriving DecidableEq, Repr

/-- A checklist: each field is either absent (`none`, i.e. JS `null`/
`undefined`) or holds a value. -/
abbrev Checklist := Field → Option JValue

/-- A partial extraction record (the non-null entries of a
`Partial<TripChecklist>` object). -/
abbrev Update := Field → Option JValue

/-- `CHECKLIST_FIELDS` (src/types/checklist.ts, lines 276-295). -/
def CHECKLIST_FIELDS : List Field :=
  [.startDate, .endDate, .travelDays, .totalBudget, .startingCity,
   .tripTheme, .groupType, .transportMode, .stayPreference,
   .adventureLevel, .foodPreference, .comfortLevel, .schedulePreference,
   .weatherPreference, .safetyNeeds, .specialRequirements,
   .avoidPlaces, .visitedPlaces]

/-- `PRIORITY_QUESTIONS` (src/types/checklist.ts, lines 297-315). -/
def PRIORITY_QUESTIONS : List Field :=
  [.startingCity, .totalBudget, .groupType, .tripTheme, .startDate,
   .travelDays, .transportMode, .stayPreference, .adventureLevel,
   .foodPreference, .schedulePreference, .comfortLevel,
   .weatherPreference, .safetyNeeds, .specialRequirements,
   .avoidPlaces, .visitedPlaces]

/-- `createEmptyChecklist` (src/types/checklist.ts): every field `null`. -/
def createEmptyChecklist : Checklist := fun _ => none

/-- The filter of `calculateCompleteness`:
`v !== null && v !== undefined && v !== '' && (!Array.isArray(v) || v.length > 0)`. -/
def isFilledV : Option JValue → Bool
  | none => false
  | some (.str s) => s ≠ ""
  | some (.num _) => true
  | some (.list xs) => xs.length > 0

/-- Number of filled fields (the `filled` local of `calculateCompleteness`). -/
def filledCount (c : Checklist) : Nat :=
  CHECKLIST_FIELDS.countP (fun f => isFilledV (c f))

/-- `calculateCompleteness` (src/types/checklist.ts, lines 346-351):
`Math.round((filled / CHECKLIST_FIELDS.length) * 100)`, i.e. half-up rounding
of `filled * 100 / 18`, written in exact integer form
`⌊(200·filled + 18) / 36⌋`. -/
def calculateCompleteness (c : Checklist) : Nat :=
  (200 * filledCount c + CHECKLIST_FIELDS.length) / (2 * CHECKLIST_FIELDS.length)

/-- Overwrite one field of a checklist (`checklist[key] = value`). -/
def updateField (c : Checklist) (f : Field) (v : JValue) : Checklist :=
  fun g => if g = f then some v else c g

theorem mem_CHECKLIST_FIELDS (f : Field) : f ∈ CHECKLIST_FIELDS := by
  cases f <;> decide

theorem CHECKLIST_FIELDS_nodup : CHECKLIST_FIELDS.Nodup := by decide

theorem countP_update_of_mem {α : Type} [DecidableEq α] (l : List α)
    (f : α) (p q : α → Bool)
    (hpq : ∀ g, g ≠ f → q g = p g) (hfp : p f = false) (hfq : q f = true) :
    l.Nodup → f ∈ l → l.countP q = l.countP p + 1 := by
  induction l with
  | nil => intro _ hf; cases hf
  | cons a t ih =>
    intro hl hf
    rcases List.mem_cons.mp hf with h | hmem
    · subst h
      have hnotmem : f ∉ t := (List.nodup_cons.mp hl).1
      have heq : t.countP q = t.countP p := by
        apply List.countP_congr
        intro g hg
        rw [hpq g (fun h => hnotmem (h ▸ hg))]
      simp [List.countP_cons, hfp, hfq, heq]
    · have ha : a ≠ f := by
        intro h
        exact (List.nodup_cons.mp hl).1 (h ▸ hmem)
      have hqa : q a = p a := hpq a ha
      have hrec := ih (List.nodup_cons.mp hl).2 hmem
      simp [List.countP_cons, hqa, hrec]
      omega

theorem filledCount_update (c : Checklist) (f : Field) (v : JValue)
    (h1 : isFilledV (c f) = false) (h2 : isFilledV (some v) = true) :
    filledCount (updateField c f v) = filledCount c + 1 := by
  apply countP_update_of_mem CHECKLIST_FIELDS f _ _ _ h1 _
    CHECKLIST_FIELDS_nodup (mem_CHECKLIST_FIELDS f)
  · intro g hg
    simp [updateField, hg]
  · simp [updateField, h2]

theorem filledCount_le (c : Checklist) : filledCount c ≤ 18 := by
  have := List.countP_le_length (l := CHECKLIST_FIELDS)
    (p := fun f => isFilledV (c f))
  simpa [filledCount] using this

theorem filledCount_eq_18_iff (c : Checklist) :
    filledCount c = 18 ↔ ∀ f, isFilledV (c f) = true := by
  have hlen : CHECKLIST_FIELDS.length = 18 := by decide
  constructor
  · intro h f
    have hcp : CHECKLIST_FIELDS.countP (fun f => isFilledV (c f)) =
        CHECKLIST_FIELDS.length := by
      rw [hlen]; exact h
    exact (List.countP_eq_length (p := fun f => isFilledV (c f))
      (l := CHECKLIST_FIELDS)).mp hcp f (mem_CHECKLIST_FIELDS f)
  · intro h
    have := (List.countP_eq_length (p := fun f => isFilledV (c f))
      (l := CHECKLIST_FIELDS)).mpr (fun g _ => h g)
    rw [filledCount, this, hlen]

/-- C2: `calculateCompleteness` is monotonically non-decreasing when an empty
field (null, empty string, or zero-length list) is filled with a non-empty
value, and equals 100 exactly when every counted field is non-empty. -/
theorem completeness_monotone_and_100 (c : Checklist) (f : Field) (v : JValue)
    (h1 : isFilledV (c f) = false) (h2 : isFilledV (some v) = true) :
    calculateCompleteness c ≤ calculateCompleteness (updateField c f v) ∧
    (∀ c' : Checklist,
      calculateCompleteness c' = 100 ↔ ∀ g, isFilledV (c' g) = true) := by
  constructor
  · unfold calculateCompleteness
    rw [filledCount_update c f v h1 h2]
    apply Nat.div_le_div_right
    omega
  · intro c'
    unfold calculateCompleteness
    have hlen : (CHECKLIST_FIELDS.length : Nat) = 18 := by decide
    rw [hlen]
    rw [← filledCount_eq_18_iff]
    have hle := filledCount_le c'
    constructor
    · intro h
      omega
    · intro h
      omega

/-- Witness for C2 at the empty checklist and the field `startingCity`. -/
theorem completeness_monotone_and_100_witness :
    isFilledV (createEmptyChecklist .startingCity) = false ∧
    isFilledV (some (.str "goa")) = true ∧
    (calculateCompleteness createEmptyChecklist ≤
      calculateCompleteness (updateField createEmptyChecklist .startingCity (.str "goa")) ∧
    (∀ c' : Checklist,
      calculateCompleteness c' = 100 ↔ ∀ g, isFilledV (c' g) = true)) :=
  ⟨by decide, by decide,
   completeness_monotone_and_100 createEmptyChecklist .startingCity (.str "goa")
     (by decide) (by decide)⟩

/-! ## AI service (src/ai-service.ts) -/

/-- One turn of conversation history (`ConversationMessage`); the
`timestamp`/`extractedFields` members play no role in the modelled logic. -/
structure ConversationMessage where
  role : String
  content : String
deriving DecidableEq, Repr

/-- `ConversationContext` (src/ai-service.ts, lines 16-21). -/
structure ConversationContext where
  recentMessages : List ConversationMessage
  currentChecklist : Checklist
  completenessPercentage : Nat
  missingFields : List String

/-- `AIResponse` (src/ai-service.ts, lines 8-14); `nextAction` is kept as the
raw string the code compares against `'generate_itinerary'` etc. -/
structure AIResponse where
  message : String
  extractedFields : Update
  nextAction : String
  confidence : ℚ
  reasoning : String

/-- Source name of each checklist field, as used in `missingFields`. -/
def fieldName : Field → String
  | .startDate => "startDate"
  | .endDate => "endDate"
  | .travelDays => "travelDays"
  | .totalBudget => "totalBudget"
  | .startingCity => "startingCity"
  | .tripTheme => "tripTheme"
  | .groupType => "groupType"
  | .transportMode => "transportMode"
  | .stayPreference => "stayPreference"
  | .adventureLevel => "adventureLevel"
  | .foodPreference => "foodPreference"
  | .comfortLevel => "comfortLevel"
  | .schedulePreference => "schedulePreference"
  | .weatherPreference => "weatherPreference"
  | .safetyNeeds => "safetyNeeds"
  | .specialRequirements => "specialRequirements"
  | .avoidPlaces => "avoidPlaces"
  | .visitedPlaces => "visitedPlaces"

/-- The `allFields` array of `predictNextFields` (src/ai-service.ts,
lines 226-231): 15 fields, in source order — note it omits `comfortLevel`,
`avoidPlaces` and `visitedPlaces`, and is NOT `PRIORITY_QUESTIONS`. -/
def predictAllFields : List Field :=
  [.startDate, .endDate, .travelDays, .totalBudget, .startingCity,
   .tripTheme, .groupType, .transportMode, .stayPreference,
   .adventureLevel, .foodPreference, .schedulePreference,
   .weatherPreference, .safetyNeeds, .specialRequirements]

/-- `predictNextFields` (src/ai-service.ts, lines 225-237): the fields of
`allFields` whose current value is `null`/`undefined`, in `allFields` order. -/
def predictNextFields (_history : List ConversationMessage)
    (current : Checklist) : List String :=
  (predictAllFields.filter (fun f => (current f).isNone)).map fieldName

/-- `missing?.replace(/([A-Z])/g, ' $1').toLowerCase()`: insert a space
before each uppercase letter, then lowercase everything. -/
def decamel (s : String) : String :=
  ⟨s.data.foldr
    (fun c acc => if c.isUpper then ' ' :: c.toLower :: acc else c.toLower :: acc)
    []⟩

/-- `getMockAIResponse` (src/ai-service.ts, lines 151-191). The asked-about
field is `context.missingFields[0]` (modelled by `List.head?`); string
interpolation of JS `undefined` renders as `"undefined"`. -/
def getMockAIResponse (_userMessage : String) (context : ConversationContext) :
    AIResponse :=
  let missing := context.missingFields.head?
  if 70 ≤ context.completenessPercentage then
    { message := "🎉 I have enough info! Generating your personalized itinerary now...",
      extractedFields := fun _ => none,
      nextAction := "generate_itinerary",
      confidence := (19 : ℚ)/20,
      reasoning := "Sufficient data collected for itinerary generation at 70% completeness" }
  else
    let message := "Thanks for that info! " ++
      (if missing = some "startDate" ∨ missing = some "endDate" then
        "When are you thinking of traveling? Give me dates or duration."
      else if missing = some "groupType" then
        "Are you traveling solo, with partner, family, or a team?"
      else if missing = some "transportMode" then
        "How do you prefer to travel - flight, train, car, bus, or bike?"
      else if missing = some "stayPreference" then
        "What\x27s your accommodation preference - budget hostels, mid-range hotels, or luxury resorts?"
      else if missing = some "tripTheme" then
        "What kind of trip appeals to you - adventure, relaxation, food & culture, beaches, or something else?"
      else
        "Tell me more about your " ++
          (match missing with
            | some s => decamel s
            | none => "undefined") ++ " preference.")
    { message := message,
      extractedFields := fun _ => none,
      nextAction := "ask_question",
      confidence := (7 : ℚ)/10,
      reasoning := "Smart fallback: Asking about missing field - " ++
        missing.getD "undefined" }

/-- Outcome of the external Gemini round-trip in `getAIResponse`:
missing API key, a thrown fetch error, a non-2xx response, empty candidate
text, or a provider text to be parsed. -/
inductive ProviderOutcome where
  | noKey
  | fetchError
  | notOk
  | emptyContent
  | content (text : String)

/-- The fields of the JSON object the provider may return; `none` models a
missing (or `null`, hence falsy) member. The JSON parser itself is passed in
as an oracle (`jsonParse` below). -/
structure ParsedAI where
  message : Option String
  extractedFields : Option Update
  nextAction : Option String
  confidence : Option ℚ
  reasoning : Option String

/-- JS `a || d` for strings (empty string is falsy). -/
def jsOrStr (v : Option String) (d : String) : String :=
  match v with
  | some s => if s = "" then d else s
  | none => d

/-- JS `a || d` for numbers (`0` is falsy). -/
def jsOrQ (v : Option ℚ) (d : ℚ) : ℚ :=
  match v with
  | some q => if q = 0 then d else q
  | none => d

/-- `aiText.match(/\{[\s\S]*\}/)`: the substring from the first `\x7b` to the
last `\x7d`, when a `\x7d` occurs after the first `\x7b`. -/
def extractJsonCandidate (s : String) : Option String :=
  let fromBrace := s.data.dropWhile (fun c => c ≠ '{')
  match fromBrace with
  | [] => none
  | _ :: _ =>
    let upToClose := (fromBrace.reverse.dropWhile (fun c => c ≠ '}')).reverse
    match upToClose with
    | [] => none
    | [_] => none
    | _ => some ⟨upToClose⟩

/-- The context object built in the `catch` of `parseAIResponse`
(src/ai-service.ts, line 143): empty history, empty checklist object,
completeness 0, no missing fields. -/
def emptyParseContext : ConversationContext :=
  { recentMessages := [], currentChecklist := fun _ => none,
    completenessPercentage := 0, missingFields := [] }

/-- `parseAIResponse` (src/ai-service.ts, lines 126-145), parameterised by
the JSON parser `jsonParse`; any parse failure falls back to the mock
responder called with an empty message and empty context. -/
def parseAIResponse (jsonParse : String → Option ParsedAI)
    (aiText : String) : AIResponse :=
  match extractJsonCandidate aiText with
  | none => getMockAIResponse "" emptyParseContext
  | some candidate =>
    match jsonParse candidate with
    | none => getMockAIResponse "" emptyParseContext
    | some parsed =>
      { message := jsOrStr parsed.message "Got it!",
        extractedFields := parsed.extractedFields.getD (fun _ => none),
        nextAction := jsOrStr parsed.nextAction "ask_question",
        confidence := jsOrQ parsed.confidence ((4 : ℚ)/5),
        reasoning := jsOrStr parsed.reasoning "" }

/-- `getAIResponse` (src/ai-service.ts, lines 26-82): every provider failure
path returns the mock response; only successfully parsed provider text
produces a non-mock response. -/
def getAIResponse (jsonParse : String → Option ParsedAI)
    (outcome : ProviderOutcome) (userMessage : String)
    (context : ConversationContext) : AIResponse :=
  match outcome with
  | .noKey => getMockAIResponse userMessage context
  | .fetchError => getMockAIResponse userMessage context
  | .notOk => getMockAIResponse userMessage context
  | .emptyContent => getMockAIResponse userMessage context
  | .content t => parseAIResponse jsonParse t

/-- A provider outcome on which `getAIResponse` cannot use the provider's
answer: any of the four failure branches, or provider text with no JSON
object, or a JSON candidate the parser rejects. -/
def providerFails (jsonParse : String → Option ParsedAI) :
    ProviderOutcome → Prop
  | .content t =>
    match extractJsonCandidate t with
    | none => True
    | some candidate => jsonParse candidate = none
  | _ => True

/-- C4: on every provider failure (no API key, network error, non-2xx, empty
content, or unparseable text), `getAIResponse` returns the deterministic mock
responder's result (for the unparseable-text paths, the mock called with an
empty message and empty context, as in the source) instead of propagating
the error. -/
theorem getAIResponse_falls_back_to_mock
    (jsonParse : String → Option ParsedAI) (userMessage : String)
    (context : ConversationContext) (o : ProviderOutcome)
    (h : providerFails jsonParse o) :
    getAIResponse jsonParse o userMessage context =
      getMockAIResponse userMessage context ∨
    getAIResponse jsonParse o userMessage context =
      getMockAIResponse "" emptyParseContext := by
  cases o with
  | noKey => left; rfl
  | fetchError => left; rfl
  | notOk => left; rfl
  | emptyContent => left; rfl
  | content t =>
    right
    show parseAIResponse jsonParse t = getMockAIResponse "" emptyParseContext
    unfold providerFails at h
    unfold parseAIResponse
    cases hx : extractJsonCandidate t with
    | none => rfl
    | some candidate =>
      have hj : jsonParse candidate = none := by simpa [hx] using h
      simp [hj]

/-- Witness for C4: with a JSON parser that always rejects and a missing API
key, the response is the mock response. -/
theorem getAIResponse_falls_back_to_mock_witness :
    providerFails (fun _ => none) ProviderOutcome.noKey ∧
    (getAIResponse (fun _ => none) ProviderOutcome.noKey "hi" emptyParseContext =
      getMockAIResponse "hi" emptyParseContext ∨
    getAIResponse (fun _ => none) ProviderOutcome.noKey "hi" emptyParseContext =
      getMockAIResponse "" emptyParseContext) :=
  ⟨trivial,
   getAIResponse_falls_back_to_mock (fun _ => none) "hi" emptyParseContext
     ProviderOutcome.noKey trivial⟩

/-- The context the conversation engine passes to the AI responder on a fresh
session (src/services/chat.ts `chat`): current checklist, its completeness,
and `predictNextFields` of it. -/
def freshSessionContext : ConversationContext :=
  { recentMessages := [],
    currentChecklist := createEmptyChecklist,
    completenessPercentage := calculateCompleteness createEmptyChecklist,
    missingFields := predictNextFields [] createEmptyChecklist }

/-- C5 counterexample: on the empty checklist the mock responder asks about
`startDate` — the head of `predictNextFields`, whose order begins with
`startDate, endDate, travelDays, ...` — and not about `startingCity`, the
first absent field in `PRIORITY_QUESTIONS` order as the claim states. -/
theorem mock_responder_ignores_priority_questions :
    (getMockAIResponse "Planning a trip" freshSessionContext).reasoning =
      "Smart fallback: Asking about missing field - startDate" ∧
    (getMockAIResponse "Planning a trip" freshSessionContext).message =
      "Thanks for that info! When are you thinking of traveling? Give me dates or duration." ∧
    (PRIORITY_QUESTIONS.filter
      (fun f => (createEmptyChecklist f).isNone)).head? = some .startingCity ∧
    fieldName .startingCity ≠ "startDate" := by
  refine ⟨rfl, rfl, rfl, ?_⟩
  decide

/-- C5 (amended): when completeness is at least 70 the mock responder
immediately returns `generate_itinerary` with confidence 0.95 and no
extracted fields; below 70 it returns `ask_question` with confidence 0.7, no
extracted fields, and asks about the head of `context.missingFields` (the
first absent field in `predictNextFields`' own order, not in
`PRIORITY_QUESTIONS` order). -/
theorem mock_responder_behavior (userMessage : String)
    (context : ConversationContext) :
    (70 ≤ context.completenessPercentage →
      getMockAIResponse userMessage context =
        { message := "🎉 I have enough info! Generating your personalized itinerary now...",
          extractedFields := fun _ => none,
          nextAction := "generate_itinerary",
          confidence := (19 : ℚ)/20,
          reasoning := "Sufficient data collected for itinerary generation at 70% completeness" }) ∧
    (context.completenessPercentage < 70 →
      (getMockAIResponse userMessage context).nextAction = "ask_question" ∧
      (getMockAIResponse userMessage context).confidence = (7 : ℚ)/10 ∧
      (getMockAIResponse userMessage context).extractedFields = (fun _ => none) ∧
      (getMockAIResponse userMessage context).reasoning =
        "Smart fallback: Asking about missing field - " ++
          (context.missingFields.head?.getD "undefined")) := by
  constructor
  · intro h
    unfold getMockAIResponse
    rw [if_pos h]
  · intro h
    have h' : ¬ 70 ≤ context.completenessPercentage := by omega
    unfold getMockAIResponse
    rw [if_neg h']
    exact ⟨rfl, rfl, rfl, rfl⟩

/-- Witness for C5 at the fresh-session context (completeness 0). -/
theorem mock_responder_behavior_witness :
    freshSessionContext.completenessPercentage < 70 ∧
    ((getMockAIResponse "hello" freshSessionContext).nextAction = "ask_question" ∧
    (getMockAIResponse "hello" freshSessionContext).confidence = (7 : ℚ)/10 ∧
    (getMockAIResponse "hello" freshSessionContext).extractedFields = (fun _ => none) ∧
    (getMockAIResponse "hello" freshSessionContext).reasoning =
      "Smart fallback: Asking about missing field - " ++
        (freshSessionContext.missingFields.head?.getD "undefined")) :=
  ⟨by decide, (mock_responder_behavior "hello" freshSessionContext).2 (by decide)⟩

/-! ## Conversation engine: extraction merge (src/services/chat.ts `chat`) -/

/-- JS truthiness of a checklist slot, as tested by
`!checklist[key]` in `refineChecklistWithAI`: `null`/`undefined`, the empty
string and the number 0 are falsy; arrays (even empty) are truthy. -/
def jsFalsy : Option JValue → Bool
  | none => true
  | some (.str s) => s = ""
  | some (.num n) => n = 0
  | some (.list _) => false

/-- The overlay step of the merge (src/services/chat.ts):
`merged = {...nlpExtracted}` then, field by field, every non-null AI field
wins over the rule-based field. -/
def overlayAI (nlpExtracted aiExtracted : Update) : Update :=
  fun f =>
    match aiExtracted f with
    | some v => some v
    | none => nlpExtracted f

/-- The merged extraction of one chat turn: the AI fields are overlaid only
when `aiResponse.confidence > 0.7`. -/
def mergeExtractions (nlpExtracted aiExtracted : Update)
    (confidence : ℚ) : Update :=
  if (7 : ℚ)/10 < confidence then overlayAI nlpExtracted aiExtracted
  else nlpExtracted

/-- The `// Update checklist` loop of `chat`: every non-null merged value is
written into the checklist, overwriting whatever was there. -/
def applyMerged (c : Checklist) (merged : Update) : Checklist :=
  fun f =>
    match merged f with
    | some v => some v
    | none => c f

/-- `refineChecklistWithAI` (src/ai-service.ts, lines 242-255): a non-null
extracted value is written only when the current slot is falsy
(`!checklist[key]`). -/
def refineChecklistWithAI (c : Checklist) (aiExtracted : Update) : Checklist :=
  fun f =>
    match aiExtracted f with
    | some v => if jsFalsy (c f) then some v else c f
    | none => c f

/-- The checklist produced by one chat turn (src/services/chat.ts `chat`):
apply the merged update, then — when `confidence > 0.8` — the conservative
refine pass over the already-updated checklist. -/
def turnChecklist (c : Checklist) (nlpExtracted aiExtracted : Update)
    (confidence : ℚ) : Checklist :=
  let merged := mergeExtractions nlpExtracted aiExtracted confidence
  let c1 := applyMerged c merged
  if (4 : ℚ)/5 < confidence then refineChecklistWithAI c1 merged else c1

/-- A checklist whose `startingCity` is already `"goa"`. -/
def checklistWithGoa : Checklist :=
  fun f => if f = .startingCity then some (.str "goa") else none

/-- A rule-based extraction carrying `startingCity = "pune"`. -/
def extractionWithPune : Update :=
  fun f => if f = .startingCity then some (.str "pune") else none

/-- C1 counterexample: a checklist already holding `startingCity = "goa"`,
merged with a field-parser extraction `startingCity = "pune"` (AI confidence
0.7, so only the rule-based update applies), ends the turn with
`startingCity = "pune"` — the already-filled field is overwritten, so the
turn's merge is not first-write-wins. -/
theorem turn_merge_overwrites_filled_field :
    turnChecklist checklistWithGoa extractionWithPune (fun _ => none)
      ((7 : ℚ)/10) Field.startingCity = some (.str "pune") ∧
    some (JValue.str "pune") ≠ some (JValue.str "goa") := by
  have h1 : ¬ ((7 : ℚ)/10 < (7 : ℚ)/10) := by norm_num
  have h2 : ¬ ((4 : ℚ)/5 < (7 : ℚ)/10) := by norm_num
  constructor
  · simp [turnChecklist, mergeExtractions, applyMerged, h1, h2,
      extractionWithPune]
  · decide

/-- C1 (amended): first-write-wins holds only inside the conservative refine
helper: `refineChecklistWithAI` never changes a field whose current value is
truthy (non-null, non-empty-string, non-zero). The chat turn's main update
loop, by contrast, overwrites already-filled fields (see the counterexample). -/
theorem refine_preserves_truthy_fields (c : Checklist) (aiExtracted : Update)
    (f : Field) (h : jsFalsy (c f) = false) :
    refineChecklistWithAI c aiExtracted f = c f := by
  unfold refineChecklistWithAI
  cases aiExtracted f with
  | none => rfl
  | some v => simp [h]

/-- Witness for C1 (amended) at a checklist holding `startingCity = "goa"`. -/
theorem refine_preserves_truthy_fields_witness :
    jsFalsy (checklistWithGoa .startingCity) = false ∧
    refineChecklistWithAI checklistWithGoa extractionWithPune .startingCity =
      checklistWithGoa .startingCity :=
  ⟨by decide,
   refine_preserves_truthy_fields checklistWithGoa extractionWithPune
     .startingCity (by decide)⟩

/-- C9: presence monotonicity — a field that is non-null before the turn's
merge is non-null after it; the merge never writes `null`/`undefined` into
the checklist. -/
theorem turn_preserves_presence (c : Checklist)
    (nlpExtracted aiExtracted : Update) (confidence : ℚ) (f : Field)
    (h : c f ≠ none) :
    turnChecklist c nlpExtracted aiExtracted confidence f ≠ none := by
  unfold turnChecklist
  set merged := mergeExtractions nlpExtracted aiExtracted confidence with hm
  have happly : applyMerged c merged f ≠ none := by
    unfold applyMerged
    cases merged f with
    | none => exact h
    | some v => simp
  by_cases hc : (4 : ℚ)/5 < confidence
  · rw [if_pos hc]
    unfold refineChecklistWithAI
    cases hmf : merged f with
    | none => exact happly
    | some v =>
      by_cases hf : jsFalsy (applyMerged c merged f) = true
      · simp [hmf, hf]
      · simp [hmf, hf]
        exact happly
  · rw [if_neg hc]
    exact happly

/-- Witness for C9: `startingCity = "goa"` is still present after a turn that
extracts nothing. -/
theorem turn_preserves_presence_witness :
    checklistWithGoa .startingCity ≠ none ∧
    turnChecklist checklistWithGoa (fun _ => none) (fun _ => none)
      ((1 : ℚ)/2) .startingCity ≠ none :=
  ⟨by decide,
   turn_preserves_presence checklistWithGoa (fun _ => none) (fun _ => none)
     ((1 : ℚ)/2) .startingCity (by decide)⟩

/-- C10: when the AI responder's confidence is not strictly greater than 0.7
(in particular every question-asking turn of the deterministic fallback,
whose confidence is exactly 0.7), the checklist update of the turn is exactly
the application of the rule-based extraction: the AI's extracted fields are
discarded, and the refine pass (which needs confidence > 0.8) never runs. -/
theorem low_confidence_turn_is_rule_based_only (c : Checklist)
    (nlpExtracted aiExtracted : Update) (confidence : ℚ)
    (h : confidence ≤ (7 : ℚ)/10) :
    turnChecklist c nlpExtracted aiExtracted confidence =
      applyMerged c nlpExtracted := by
  have h1 : ¬ (7 : ℚ)/10 < confidence := not_lt.mpr h
  have h2 : ¬ (4 : ℚ)/5 < confidence := by
    intro hlt
    have : (7 : ℚ)/10 < confidence := lt_trans (by norm_num) hlt
    exact h1 this
  unfold turnChecklist mergeExtractions
  rw [if_neg h1, if_neg h2]

/-- Witness for C10 at confidence exactly 0.7. -/
theorem low_confidence_turn_is_rule_based_only_witness :
    ((7 : ℚ)/10 ≤ (7 : ℚ)/10) ∧
    turnChecklist checklistWithGoa extractionWithPune (fun _ => none)
      ((7 : ℚ)/10) = applyMerged checklistWithGoa extractionWithPune :=
  ⟨le_refl _,
   low_confidence_turn_is_rule_based_only checklistWithGoa extractionWithPune
     (fun _ => none) ((7 : ℚ)/10) (le_refl _)⟩

/-! ## Itinerary synthesizer (src/services/chat.ts `generateItinerary`) -/

/-- Read a checklist slot as a number; used where the source reads
`checklist.travelDays` / `checklist.totalBudget` as numbers (the theorems
below assume the slot is numeric or absent, per the data model). -/
def getNumField (c : Checklist) (f : Field) : Option Int :=
  match c f with
  | some (.num n) => some n
  | _ => none

/-- Read a checklist slot as a string. -/
def getStrField (c : Checklist) (f : Field) : Option String :=
  match c f with
  | some (.str s) => some s
  | _ => none

/-- JS `a || d` for numbers read from the checklist (`null` and `0` both give
the default). -/
def jsOrInt (v : Option Int) (d : Int) : Int :=
  match v with
  | some n => if n = 0 then d else n
  | none => d

/-- JS `Math.round` on the exact rational value: half-up rounding
`⌊q + 1/2⌋`. -/
def jsRound (q : ℚ) : Int := Int.floor (q + 1/2)

/-- The `budgetBreakdown` object of `generateItinerary`. -/
structure BudgetBreakdown where
  accommodation : Int
  food : Int
  activities : Int
  transport : Int
deriving DecidableEq, Repr

/-- One activity block of a generated day. -/
structure ItineraryBlock where
  time : String
  activity : String
  location : String
  cost : Int
  duration : String
deriving DecidableEq, Repr

/-- One generated day (`itineraryDays` entries); the calendar date string is
not modelled (it depends on the wall clock), only the sequential day index. -/
structure ItineraryDay where
  day : Nat
  theme : String
  blocks : List ItineraryBlock
  estimatedBudget : Int
deriving DecidableEq, Repr

/-- The object returned by `generateItinerary`. -/
structure Itinerary where
  title : String
  days : List ItineraryDay
  totalBudget : Option Int
  budgetBreakdown : BudgetBreakdown
deriving DecidableEq, Repr

/-- `theme.charAt(0).toUpperCase() + theme.slice(1)`. -/
def capitalizeFirst (s : String) : String :=
  match s.data with
  | [] => ""
  | c :: rest => ⟨c.toUpper :: rest⟩

/-- `getThemeForDay` (src/services/chat.ts). -/
def getThemeForDay (dayIndex totalDays : Nat) (c : Checklist) : String :=
  let theme := jsOrStr (getStrField c .tripTheme) "Mixed"
  if dayIndex = 0 then "Arrival & Settling In"
  else if dayIndex = totalDays - 1 then "Departure"
  else capitalizeFirst theme ++ " Activities"

/-- `generateDayBlocks` (src/services/chat.ts). -/
def generateDayBlocks (dayIndex : Nat) (c : Checklist) : List ItineraryBlock :=
  let theme := jsOrStr (getStrField c .tripTheme) "mixed"
  (if dayIndex = 0 then
    [⟨"09:00 AM", "Arrive & Check-in",
      jsOrStr (getStrField c .startingCity) "Destination", 0, "1 hour"⟩]
  else []) ++
  (if theme = "adventure" ∨ theme = "relaxed" then
    [⟨"11:00 AM", "Explore local attractions", "Main area", 500, "3 hours"⟩]
  else []) ++
  (if theme = "foodie" then
    [⟨"12:00 PM", "Local food tour", "Food markets", 800, "2 hours"⟩]
  else []) ++
  [⟨"01:00 PM", "Lunch", "Local restaurant", 400, "1 hour"⟩,
   ⟨"03:00 PM", "Afternoon activity", "Varies", 600, "2 hours"⟩,
   ⟨"06:00 PM", "Sunset & evening", "Scenic spot", 300, "2 hours"⟩,
   ⟨"08:00 PM", "Dinner", "Local restaurant", 500, "1.5 hours"⟩]

/-- `generateItinerary` (src/services/chat.ts): `days = travelDays || 3`, one
day entry per day (`Array.from({length: days})` is empty for a non-positive
length), per-day budget `Math.round((totalBudget || 0) / days)`, and the
fixed 40/30/20/10 percent budget breakdown, each category rounded. -/
def generateItinerary (c : Checklist) : Itinerary :=
  let days : Int := jsOrInt (getNumField c .travelDays) 3
  let numDays : Nat := days.toNat
  let budget : Int := jsOrInt (getNumField c .totalBudget) 0
  { title :=
      (match getNumField c .travelDays with
        | some n => toString n
        | none => "null") ++ "-Day " ++
      jsOrStr (getStrField c .startingCity) "Trip" ++ " Itinerary",
    days := (List.range numDays).map (fun i =>
      { day := i + 1,
        theme := "Day " ++ toString (i + 1) ++ ": " ++ getThemeForDay i numDays c,
        blocks := generateDayBlocks i c,
        estimatedBudget := jsRound ((budget : ℚ) / (days : ℚ)) }),
    totalBudget := getNumField c .totalBudget,
    budgetBreakdown :=
      { accommodation := jsRound ((budget : ℚ) * (2/5)),
        food := jsRound ((budget : ℚ) * (3/10)),
        activities := jsRound ((budget : ℚ) * (1/5)),
        transport := jsRound ((budget : ℚ) * (1/10)) } }

/-- The response of one chat turn, restricted to the members the claims
are about. -/
structure ChatTurnResult where
  checklist : Checklist
  completeness : Nat
  itinerary : Option Itinerary
  status : String

/-- One chat turn of the conversation engine (src/services/chat.ts `chat`),
given the rule-based extraction of the message and the AI responder's
answer: merge and apply the extractions, recompute completeness, and
generate the itinerary exactly when the recomputed completeness is ≥ 70 and
the AI signalled `generate_itinerary`. -/
def chatTurn (c : Checklist) (nlpExtracted : Update) (ai : AIResponse) :
    ChatTurnResult :=
  let c2 := turnChecklist c nlpExtracted ai.extractedFields ai.confidence
  let completeness := calculateCompleteness c2
  let itinerary : Option Itinerary :=
    if 70 ≤ completeness ∧ ai.nextAction = "generate_itinerary" then
      some (generateItinerary c2)
    else none
  { checklist := c2, completeness := completeness, itinerary := itinerary,
    status := if 70 ≤ completeness then "complete" else "incomplete" }

theorem jsRound_nonneg (q : ℚ) (h : 0 ≤ q) : 0 ≤ jsRound q := by
  unfold jsRound
  have : (0 : ℚ) ≤ q + 1/2 := by linarith
  exact Int.floor_nonneg.mpr this

theorem generateItinerary_days_length (c : Checklist)
    (hD : ∀ d, getNumField c .travelDays = some d → 0 < d) :
    (generateItinerary c).days.length =
      (match getNumField c .travelDays with
        | some d => d.toNat
        | none => 3) := by
  unfold generateItinerary
  simp only [List.length_map, List.length_range]
  cases hx : getNumField c .travelDays with
  | none => simp [jsOrInt]
  | some d =>
    have hd := hD d hx
    have hne : d ≠ 0 := by omega
    simp [jsOrInt, hne]

/-- C3: when the recomputed completeness of a turn is at least the generation
threshold 70 and the AI responder signals `generate_itinerary`, the turn's
response carries a non-absent itinerary whose `days` list has length equal
to the checklist's `travelDays` (3 when absent) and whose four
budget-breakdown categories are each ≥ 0 (for a well-formed checklist:
`travelDays` absent or a positive integer, `totalBudget` absent or
non-negative). -/
theorem generation_trigger_produces_itinerary (c : Checklist)
    (nlpExtracted : Update) (ai : AIResponse)
    (hD : ∀ d, getNumField
      (turnChecklist c nlpExtracted ai.extractedFields ai.confidence)
      .travelDays = some d → 0 < d)
    (hB : ∀ b, getNumField
      (turnChecklist c nlpExtracted ai.extractedFields ai.confidence)
      .totalBudget = some b → 0 ≤ b)
    (hComp : 70 ≤ calculateCompleteness
      (turnChecklist c nlpExtracted ai.extractedFields ai.confidence))
    (hAct : ai.nextAction = "generate_itinerary") :
    (chatTurn c nlpExtracted ai).itinerary =
      some (generateItinerary
        (turnChecklist c nlpExtracted ai.extractedFields ai.confidence)) ∧
    (generateItinerary
      (turnChecklist c nlpExtracted ai.extractedFields ai.confidence)).days.length =
      (match getNumField
        (turnChecklist c nlpExtracted ai.extractedFields ai.confidence)
        .travelDays with
        | some d => d.toNat
        | none => 3) ∧
    0 ≤ (generateItinerary
      (turnChecklist c nlpExtracted ai.extractedFields ai.confidence)).budgetBreakdown.accommodation ∧
    0 ≤ (generateItinerary
      (turnChecklist c nlpExtracted ai.extractedFields ai.confidence)).budgetBreakdown.food ∧
    0 ≤ (generateItinerary
      (turnChecklist c nlpExtracted ai.extractedFields ai.confidence)).budgetBreakdown.activities ∧
    0 ≤ (generateItinerary
      (turnChecklist c nlpExtracted ai.extractedFields ai.confidence)).budgetBreakdown.transport := by
  set c2 := turnChecklist c nlpExtracted ai.extractedFields ai.confidence with hc2
  have hbud : (0 : Int) ≤ jsOrInt (getNumField c2 .totalBudget) 0 := by
    cases hx : getNumField c2 .totalBudget with
    | none => simp [jsOrInt]
    | some b =>
      have := hB b hx
      unfold jsOrInt
      by_cases hb0 : b = 0 <;> simp [hb0]
      omega
  have hbudq : (0 : ℚ) ≤ ((jsOrInt (getNumField c2 .totalBudget) 0 : Int) : ℚ) := by
    exact_mod_cast hbud
  refine ⟨?_, generateItinerary_days_length c2 hD, ?_, ?_, ?_, ?_⟩
  · show (if 70 ≤ calculateCompleteness c2 ∧
        ai.nextAction = "generate_itinerary" then
        some (generateItinerary c2) else none) = some (generateItinerary c2)
    rw [if_pos ⟨hComp, hAct⟩]
  · exact jsRound_nonneg _ (by positivity)
  · exact jsRound_nonneg _ (by positivity)
  · exact jsRound_nonneg _ (by positivity)
  · exact jsRound_nonneg _ (by positivity)

/-- A fully-filled checklist used as a concrete witness input. -/
def fullChecklist : Checklist := fun f =>
  match f with
  | .startDate => some (.str "2025-12-20")
  | .endDate => some (.str "2025-12-23")
  | .travelDays => some (.num 4)
  | .totalBudget => some (.num 15000)
  | .startingCity => some (.str "goa")
  | .tripTheme => some (.str "beach")
  | .groupType => some (.str "team")
  | .transportMode => some (.str "train")
  | .stayPreference => some (.str "hostel")
  | .adventureLevel => some (.str "high")
  | .foodPreference => some (.str "any")
  | .comfortLevel => some (.str "standard")
  | .schedulePreference => some (.str "relaxed")
  | .weatherPreference => some (.str "sunny")
  | .safetyNeeds => some (.str "none")
  | .specialRequirements => some (.str "none")
  | .avoidPlaces => some (.list ["Crowds"])
  | .visitedPlaces => some (.list ["Panaji"])

/-- An AI answer signalling generation with no extracted fields. -/
def generateSignal : AIResponse :=
  { message := "Generating now", extractedFields := fun _ => none,
    nextAction := "generate_itinerary", confidence := (19 : ℚ)/20,
    reasoning := "ready" }

/-- Witness for C3 on a fully-filled checklist (completeness 100,
`travelDays = 4`, `totalBudget = 15000`). -/
theorem generation_trigger_produces_itinerary_witness :
    (∀ d, getNumField
      (turnChecklist fullChecklist (fun _ => none)
        generateSignal.extractedFields generateSignal.confidence)
      .travelDays = some d → 0 < d) ∧
    (chatTurn fullChecklist (fun _ => none) generateSignal).itinerary =
      some (generateItinerary
        (turnChecklist fullChecklist (fun _ => none)
          generateSignal.extractedFields generateSignal.confidence)) := by
  have hturn : turnChecklist fullChecklist (fun _ => none)
      generateSignal.extractedFields generateSignal.confidence = fullChecklist := by
    funext f
    have h1 : (7 : ℚ)/10 < (19 : ℚ)/20 := by norm_num
    have h2 : (4 : ℚ)/5 < (19 : ℚ)/20 := by norm_num
    simp [turnChecklist, mergeExtractions, applyMerged, refineChecklistWithAI,
      overlayAI, generateSignal, h1, h2]
  constructor
  · intro d hd
    rw [hturn] at hd
    simp [getNumField, fullChecklist] at hd
    omega
  · exact (generation_trigger_produces_itinerary fullChecklist (fun _ => none)
      generateSignal
      (by rw [hturn]; intro d hd; simp [getNumField, fullChecklist] at hd; omega)
      (by rw [hturn]; intro b hb; simp [getNumField, fullChecklist] at hb; omega)
      (by rw [hturn]; decide)
      rfl).1

/-- A checklist holding only `totalBudget = 5`. -/
def budgetFiveChecklist : Checklist :=
  fun f => if f = .totalBudget then some (.num 5) else none

/-- C6 counterexample: with `totalBudget = 5` (a positive integer) the
breakdown is accommodation 2, food 2, activities 1, transport 1 — each the
half-up rounding of the respective percentage — but their sum is 6 > 5, so
the four rounded categories do not sum to at most the total budget. -/
theorem budget_breakdown_sum_exceeds_budget :
    (generateItinerary budgetFiveChecklist).budgetBreakdown =
      ⟨2, 2, 1, 1⟩ ∧
    ¬ ((2 : Int) + 2 + 1 + 1 ≤ 5) := by
  constructor
  · show BudgetBreakdown.mk
      (jsRound (((jsOrInt (getNumField budgetFiveChecklist .totalBudget) 0 : Int) : ℚ) * (2/5)))
      (jsRound (((jsOrInt (getNumField budgetFiveChecklist .totalBudget) 0 : Int) : ℚ) * (3/10)))
      (jsRound (((jsOrInt (getNumField budgetFiveChecklist .totalBudget) 0 : Int) : ℚ) * (1/5)))
      (jsRound (((jsOrInt (getNumField budgetFiveChecklist .totalBudget) 0 : Int) : ℚ) * (1/10))) =
      ⟨2, 2, 1, 1⟩
    have hb : (jsOrInt (getNumField budgetFiveChecklist .totalBudget) 0 : Int) = 5 := by
      simp [jsOrInt, getNumField, budgetFiveChecklist]
    rw [hb]
    unfold jsRound
    norm_num [Int.floor_eq_iff]
  · omega

/-- C6 (amended): for every positive integer budget `B`, each breakdown
category equals the half-up rounding of its fixed percentage of `B`
(40/30/20/10), and the sum of the four rounded categories is at most
`B + 2` (rounding slack) — but not necessarily at most `B`. -/
theorem budget_breakdown_rounded_sum_bound (B : Int) (h : 0 < B) :
    ∀ c : Checklist, getNumField c .totalBudget = some B →
    (generateItinerary c).budgetBreakdown =
      ⟨jsRound ((B : ℚ) * (2/5)), jsRound ((B : ℚ) * (3/10)),
       jsRound ((B : ℚ) * (1/5)), jsRound ((B : ℚ) * (1/10))⟩ ∧
    jsRound ((B : ℚ) * (2/5)) + jsRound ((B : ℚ) * (3/10)) +
      jsRound ((B : ℚ) * (1/5)) + jsRound ((B : ℚ) * (1/10)) ≤ B + 2 := by
  intro c hc
  have hBne : B ≠ 0 := by omega
  have hb : (jsOrInt (getNumField c .totalBudget) 0 : Int) = B := by
    rw [hc]; simp [jsOrInt, hBne]
  constructor
  · show BudgetBreakdown.mk
      (jsRound (((jsOrInt (getNumField c .totalBudget) 0 : Int) : ℚ) * (2/5)))
      (jsRound (((jsOrInt (getNumField c .totalBudget) 0 : Int) : ℚ) * (3/10)))
      (jsRound (((jsOrInt (getNumField c .totalBudget) 0 : Int) : ℚ) * (1/5)))
      (jsRound (((jsOrInt (getNumField c .totalBudget) 0 : Int) : ℚ) * (1/10))) = _
    rw [hb]
  · unfold jsRound
    have h1 : ((Int.floor ((B : ℚ) * (2/5) + 1/2) : Int) : ℚ) ≤ (B : ℚ) * (2/5) + 1/2 :=
      Int.floor_le _
    have h2 : ((Int.floor ((B : ℚ) * (3/10) + 1/2) : Int) : ℚ) ≤ (B : ℚ) * (3/10) + 1/2 :=
      Int.floor_le _
    have h3 : ((Int.floor ((B : ℚ) * (1/5) + 1/2) : Int) : ℚ) ≤ (B : ℚ) * (1/5) + 1/2 :=
      Int.floor_le _
    have h4 : ((Int.floor ((B : ℚ) * (1/10) + 1/2) : Int) : ℚ) ≤ (B : ℚ) * (1/10) + 1/2 :=
      Int.floor_le _
    have hsum : ((Int.floor ((B : ℚ) * (2/5) + 1/2) +
        Int.floor ((B : ℚ) * (3/10) + 1/2) +
        Int.floor ((B : ℚ) * (1/5) + 1/2) +
        Int.floor ((B : ℚ) * (1/10) + 1/2) : Int) : ℚ) ≤ ((B + 2 : Int) : ℚ) := by
      push_cast
      linarith
    exact_mod_cast hsum

/-- Witness for C6 (amended) at `B = 5`. -/
theorem budget_breakdown_rounded_sum_bound_witness :
    (0 : Int) < 5 ∧
    ((generateItinerary budgetFiveChecklist).budgetBreakdown =
      ⟨jsRound ((5 : ℚ) * (2/5)), jsRound ((5 : ℚ) * (3/10)),
       jsRound ((5 : ℚ) * (1/5)), jsRound ((5 : ℚ) * (1/10))⟩ ∧
    jsRound ((5 : ℚ) * (2/5)) + jsRound ((5 : ℚ) * (3/10)) +
      jsRound ((5 : ℚ) * (1/5)) + jsRound ((5 : ℚ) * (1/10)) ≤ 5 + 2) :=
  ⟨by norm_num,
   budget_breakdown_rounded_sum_bound 5 (by norm_num) budgetFiveChecklist
     (by simp [getNumField, budgetFiveChecklist])⟩

/-! ## Session reset (src/handlers/chat-handler.ts, POST /api/session/:id/reset) -/

/-- The members of `ChatSession` the reset claim is about (timestamps are
not modelled). -/
structure ChatSession where
  checklist : Checklist
  history : List ConversationMessage
  completeness : Nat

/-- The reset endpoint handler (src/handlers/chat-handler.ts, lines 131-176):
it loads the session, replaces `session.checklist` by a literal object
(whose keys are `startDate/endDate/travelDays/totalBudget` set to `null`
plus fields that are not `TripChecklist` fields at all — so every one of the
18 checklist fields reads back as `null`/`undefined`), sets
`session.history = []` and `session.updatedAt` — and never touches
`session.completeness`. -/
def resetSessionHandler (s : ChatSession) : ChatSession :=
  { checklist := fun _ => none,
    history := [],
    completeness := s.completeness }

/-- A session mid-conversation: stored completeness 50, one message. -/
def sessionAtFifty : ChatSession :=
  { checklist := checklistWithGoa,
    history := [{ role := "user", content := "starting from goa" }],
    completeness := 50 }

/-- C8: the reset handler does clear the history (length 0) but leaves the
session's stored `completeness` at its prior value — here 50, not 0 — so a
reset session does not satisfy `completeness === 0` as the spec requires.
The checklist fields are all cleared. -/
theorem reset_leaves_stale_completeness :
    (resetSessionHandler sessionAtFifty).history.length = 0 ∧
    (resetSessionHandler sessionAtFifty).completeness = 50 ∧
    (50 : Nat) ≠ 0 ∧
    (∀ f, (resetSessionHandler sessionAtFifty).checklist f = none) := by
  refine ⟨rfl, rfl, by decide, fun f => rfl⟩

/-! ## Budget parsing

Two budget parsers exist in the repository:
`parseBudget` of src/nlp-parser-chrono.ts (here `parseBudgetChrono`) and
`parseBudget` of src/nlp-parser.ts (here `parseBudgetNlp`). The conversation
engine (src/services/chat.ts) imports `parseMessage` from src/nlp-parser.ts,
so `parseBudgetNlp` is the one that runs on a chat turn.

The regex patterns are embedded as leftmost-match scanners over the
character list; `parseInt` of a digit group is the exact decimal value. -/

/-- `parseInt` of a digit string (no overflow modelled). -/
def digitsVal (ds : List Char) : Nat :=
  ds.foldl (fun n c => 10 * n + (c.toNat - 48)) 0

/-- `pat` matches literally at the start of `s`. -/
def litAt (pat s : List Char) : Bool := s.take pat.length == pat

/-- `(?:\s|$)`: end of input or a whitespace character next. -/
def wsOrEnd : List Char → Bool
  | [] => true
  | c :: _ => c.isWhitespace

/-- JS `\w`: ASCII letter, digit or underscore. -/
def isWordChar (c : Char) : Bool := c.isAlphanum || c == '_'

/-- `\b` against the following character: end of input or a non-word
character next. -/
def nonWordOrEnd : List Char → Bool
  | [] => true
  | c :: _ => !(isWordChar c)

/-- Leftmost match of `/(\d+)\s*(?:kw1|kw2|…)/i`: a digit run, optional
whitespace, then one of the (lowercase) keywords; returns the digit run's
value. -/
def findNumThen (kws : List (List Char)) : List Char → Option Nat
  | [] => none
  | c :: cs =>
    if c.isDigit then
      let ds := (c :: cs).takeWhile Char.isDigit
      let afterSp :=
        ((c :: cs).dropWhile Char.isDigit).dropWhile Char.isWhitespace
      if kws.any (fun k => litAt k (afterSp.map Char.toLower)) then
        some (digitsVal ds)
      else findNumThen kws cs
    else findNumThen kws cs

/-- Leftmost match of `/(\d+)\s*(?:kw1|kw2|…)\b/i` (keyword followed by a
word boundary). -/
def findNumThenB (kws : List (List Char)) : List Char → Option Nat
  | [] => none
  | c :: cs =>
    if c.isDigit then
      let ds := (c :: cs).takeWhile Char.isDigit
      let afterSp :=
        ((c :: cs).dropWhile Char.isDigit).dropWhile Char.isWhitespace
      if kws.any (fun k =>
          litAt k (afterSp.map Char.toLower) && nonWordOrEnd (afterSp.drop k.length)) then
        some (digitsVal ds)
      else findNumThenB kws cs
    else findNumThenB kws cs

/-- Leftmost match of `/(\d+)\s*[kK](?:\s|$)/` (chrono pattern 2). -/
def findKWs : List Char → Option Nat
  | [] => none
  | c :: cs =>
    if c.isDigit then
      let ds := (c :: cs).takeWhile Char.isDigit
      let afterSp :=
        ((c :: cs).dropWhile Char.isDigit).dropWhile Char.isWhitespace
      match afterSp with
      | k :: rest =>
        if (k == 'k' || k == 'K') && wsOrEnd rest then some (digitsVal ds)
        else findKWs cs
      | [] => findKWs cs
    else findKWs cs

/-- Leftmost match of `/(\d+)\s*k\b/i` (the `k` multiplier test of
src/nlp-parser.ts). -/
def findKB : List Char → Option Nat
  | [] => none
  | c :: cs =>
    if c.isDigit then
      let ds := (c :: cs).takeWhile Char.isDigit
      let afterSp :=
        ((c :: cs).dropWhile Char.isDigit).dropWhile Char.isWhitespace
      match afterSp with
      | k :: rest =>
        if (k == 'k' || k == 'K') && nonWordOrEnd rest then some (digitsVal ds)
        else findKB cs
      | [] => findKB cs
    else findKB cs

/-- Leftmost maximal run of `[\d,]` characters (chrono pattern 4,
`/₹?([\d,]+)…/`). -/
def findCommaRun : List Char → Option (List Char)
  | [] => none
  | c :: cs =>
    if c.isDigit || c == ',' then
      some ((c :: cs).takeWhile (fun ch => ch.isDigit || ch == ','))
    else findCommaRun cs

/-- `parseBudget` of src/nlp-parser-chrono.ts (lines 134-169): lakh/lac,
then `k`, then rs/rupees with the `0 < N < 10,000,000` bound, then a bare
comma-grouped number with the same bound; an out-of-bounds rs value falls
through to the bare-number pattern, exactly as in the source. -/
def parseBudgetChrono (s : String) : Option Nat :=
  let cs := s.data
  match findNumThen ["lakh".data, "lac".data] cs with
  | some n => some (n * 100000)
  | none =>
    match findKWs cs with
    | some n => some (n * 1000)
    | none =>
      let pat4 : Option Nat :=
        match findCommaRun cs with
        | some run =>
          let ds := run.filter Char.isDigit
          if ds.isEmpty then none
          else
            let b := digitsVal ds
            if 0 < b ∧ b < 10000000 then some b else none
        | none => none
      match findNumThen ["rs".data, "rupee".data] cs with
      | some v => if 0 < v ∧ v < 10000000 then some v else pat4
      | none => pat4

/-- `(?:,\d{3})*`: repeatedly consume a comma followed by exactly three
digits, returning the digits consumed. -/
def commaGroups : List Char → List Char
  | ',' :: a :: b :: c :: rest =>
    if a.isDigit && b.isDigit && c.isDigit then a :: b :: c :: commaGroups rest
    else []
  | _ => []

/-- Capture group of nlp-parser pattern 1
`/[₹₽Rs.rs]*\s*(\d+(?:,\d{3})*)\s*(?:rupees?|rs|inr)?/i`: since the prefix
class and the suffix are optional, the group is the comma-grouped number at
the first digit of the message. -/
def nlpPat1 : List Char → Option Nat
  | [] => none
  | c :: cs =>
    if c.isDigit then
      let ds := (c :: cs).takeWhile Char.isDigit
      let rest := (c :: cs).dropWhile Char.isDigit
      some (digitsVal (ds ++ commaGroups rest))
    else nlpPat1 cs

/-- Leftmost match of `/\b(\d{4,})\b/` (nlp-parser pattern 4): a maximal
digit run of length at least 4 flanked by word boundaries. `prevWord` tracks
whether the preceding character is a word character. -/
def findBareLong (prevWord : Bool) : List Char → Option Nat
  | [] => none
  | c :: cs =>
    if c.isDigit && !prevWord then
      let ds := (c :: cs).takeWhile Char.isDigit
      let rest := (c :: cs).dropWhile Char.isDigit
      if 4 ≤ ds.length && nonWordOrEnd rest then some (digitsVal ds)
      else findBareLong true cs
    else findBareLong (isWordChar c) cs

/-- The multiplier block of `parseBudget` in src/nlp-parser.ts
(lines 233-244): the captured number is multiplied by 1000 / 1000 / 100000 /
10000000 whenever the whole message also matches the `k` / `thousand` /
`lakh` / `crore` regex; the multipliers stack. -/
def applyMultipliers (cs : List Char) (n : Nat) : Nat :=
  let n1 := if (findKB cs).isSome then n * 1000 else n
  let n2 := if (findNumThen ["thousand".data] cs).isSome then n1 * 1000 else n1
  let n3 := if (findNumThen ["lakh".data] cs).isSome then n2 * 100000 else n2
  if (findNumThen ["crore".data] cs).isSome then n3 * 10000000 else n3

/-- One iteration of the pattern loop of `parseBudget` in src/nlp-parser.ts:
if the pattern captured a number, apply the multipliers and accept the
result only when it is positive (`if (budget > 0) return budget`). -/
def attemptPattern (cs : List Char) (g : Option Nat) : Option Nat :=
  match g with
  | some n =>
    let b := applyMultipliers cs n
    if 0 < b then some b else none
  | none => none

/-- `parseBudget` of src/nlp-parser.ts (lines 216-253): the four patterns in
source order — currency/bare comma-grouped number, `Nk`,
`N thousand|lakh|crore`, 4-plus-digit bare number — each post-processed by
the multiplier block; no upper bound is applied anywhere. -/
def parseBudgetNlp (s : String) : Option Nat :=
  let cs := s.data
  (attemptPattern cs (nlpPat1 cs)).orElse (fun _ =>
    (attemptPattern cs (findKB cs)).orElse (fun _ =>
      (attemptPattern cs
        (findNumThenB ["thousand".data, "lakh".data, "crore".data] cs)).orElse
        (fun _ => attemptPattern cs (findBareLong false cs))))

/-- C7 counterexample: on the message `"20000000"` — whose only numeric
content is a bare number ≥ 10,000,000 — the budget parser used by the
conversation engine (src/nlp-parser.ts) returns 20000000 instead of leaving
`totalBudget` absent; only the unused chrono parser rejects it. -/
theorem nlp_budget_accepts_huge_bare_number :
    parseBudgetNlp "20000000" = some 20000000 ∧
    parseBudgetChrono "20000000" = none := by
  constructor
  · rfl
  · rfl

theorem findNumThen_all_digits (kws : List (List Char))
    (hk : ∀ k ∈ kws, k ≠ []) (cs : List Char)
    (h : ∀ c ∈ cs, c.isDigit = true) :
    findNumThen kws cs = none := by
  induction cs with
  | nil => rfl
  | cons c cs ih =>
    have hc : c.isDigit = true := h c (List.mem_cons_self c cs)
    have hcs : ∀ x ∈ cs, x.isDigit = true :=
      fun x hx => h x (List.mem_cons_of_mem c hx)
    have hdrop : (c :: cs).dropWhile Char.isDigit = [] :=
      List.dropWhile_eq_nil_iff.mpr h
    have hany : kws.any (fun k =>
        litAt k ((((c :: cs).dropWhile Char.isDigit).dropWhile
          Char.isWhitespace).map Char.toLower)) = false := by
      rw [List.any_eq_false]
      intro k hkmem
      rw [hdrop]
      simp [litAt]
      intro habs
      exact hk k hkmem habs
    unfold findNumThen
    simp only [hc, if_true, hany, Bool.false_eq_true, if_false]
    exact ih hcs

theorem findNumThenB_all_digits (kws : List (List Char))
    (hk : ∀ k ∈ kws, k ≠ []) (cs : List Char)
    (h : ∀ c ∈ cs, c.isDigit = true) :
    findNumThenB kws cs = none := by
  induction cs with
  | nil => rfl
  | cons c cs ih =>
    have hc : c.isDigit = true := h c (List.mem_cons_self c cs)
    have hcs : ∀ x ∈ cs, x.isDigit = true :=
      fun x hx => h x (List.mem_cons_of_mem c hx)
    have hdrop : (c :: cs).dropWhile Char.isDigit = [] :=
      List.dropWhile_eq_nil_iff.mpr h
    have hany : kws.any (fun k =>
        litAt k ((((c :: cs).dropWhile Char.isDigit).dropWhile
          Char.isWhitespace).map Char.toLower) &&
        nonWordOrEnd ((((c :: cs).dropWhile Char.isDigit).dropWhile
          Char.isWhitespace).drop k.length)) = false := by
      rw [List.any_eq_false]
      intro k hkmem
      rw [hdrop]
      simp [litAt]
      intro habs
      exact absurd habs (hk k hkmem)
    unfold findNumThenB
    simp only [hc, if_true, hany, Bool.false_eq_true, if_false]
    exact ih hcs

theorem findKWs_all_digits (cs : List Char)
    (h : ∀ c ∈ cs, c.isDigit = true) :
    findKWs cs = none := by
  induction cs with
  | nil => rfl
  | cons c cs ih =>
    have hc : c.isDigit = true := h c (List.mem_cons_self c cs)
    have hcs : ∀ x ∈ cs, x.isDigit = true :=
      fun x hx => h x (List.mem_cons_of_mem c hx)
    have hdrop : (c :: cs).dropWhile Char.isDigit = [] :=
      List.dropWhile_eq_nil_iff.mpr h
    unfold findKWs
    simp only [hc, if_true, hdrop, List.dropWhile_nil]
    exact ih hcs

theorem findKB_all_digits (cs : List Char)
    (h : ∀ c ∈ cs, c.isDigit = true) :
    findKB cs = none := by
  induction cs with
  | nil => rfl
  | cons c cs ih =>
    have hc : c.isDigit = true := h c (List.mem_cons_self c cs)
    have hcs : ∀ x ∈ cs, x.isDigit = true :=
      fun x hx => h x (List.mem_cons_of_mem c hx)
    have hdrop : (c :: cs).dropWhile Char.isDigit = [] :=
      List.dropWhile_eq_nil_iff.mpr h
    unfold findKB
    simp only [hc, if_true, hdrop, List.dropWhile_nil]
    exact ih hcs

theorem applyMultipliers_all_digits (cs : List Char)
    (h : ∀ c ∈ cs, c.isDigit = true) (n : Nat) :
    applyMultipliers cs n = n := by
  unfold applyMultipliers
  rw [findKB_all_digits cs h,
    findNumThen_all_digits ["thousand".data] (by decide) cs h,
    findNumThen_all_digits ["lakh".data] (by decide) cs h,
    findNumThen_all_digits ["crore".data] (by decide) cs h]
  simp

/-- C7 (amended): the priority chain the claim describes — lakh, then `Nk`,
then rs/rupees, then a bare comma-grouped number, the last two bounded by
`0 < N < 10,000,000` — is implemented by the `parseBudget` of
src/nlp-parser-chrono.ts, which therefore leaves `totalBudget` absent on a
message whose only content is a bare number ≥ 10,000,000; but the parser the
conversation engine actually uses (`parseBudget` of src/nlp-parser.ts)
matches any number through its first pattern with no upper bound, and
returns that number for the same message. -/
theorem bare_huge_number_budget_parsers (cs : List Char)
    (hd : ∀ c ∈ cs, c.isDigit = true)
    (hbig : 10000000 ≤ digitsVal cs) :
    parseBudgetChrono (String.mk cs) = none ∧
    parseBudgetNlp (String.mk cs) = some (digitsVal cs) := by
  cases cs with
  | nil => simp [digitsVal] at hbig
  | cons c cs =>
    have hc : c.isDigit = true := hd c (List.mem_cons_self c cs)
    have hdata : (String.mk (c :: cs)).data = c :: cs := rfl
    have htake : (c :: cs).takeWhile Char.isDigit = c :: cs :=
      List.takeWhile_eq_self_iff.mpr hd
    have hdrop : (c :: cs).dropWhile Char.isDigit = [] :=
      List.dropWhile_eq_nil_iff.mpr hd
    constructor
    · have h1 := findNumThen_all_digits ["lakh".data, "lac".data]
        (by decide) (c :: cs) hd
      have h2 := findKWs_all_digits (c :: cs) hd
      have h3 := findNumThen_all_digits ["rs".data, "rupee".data]
        (by decide) (c :: cs) hd
      have hruntake : (c :: cs).takeWhile (fun ch => ch.isDigit || ch == ',') =
          c :: cs :=
        List.takeWhile_eq_self_iff.mpr (fun x hx => by simp [hd x hx])
      have hrun : findCommaRun (c :: cs) = some (c :: cs) := by
        unfold findCommaRun
        simp only [hc, Bool.true_or, if_true, hruntake]
      have hfilter : (c :: cs).filter Char.isDigit = c :: cs :=
        List.filter_eq_self.mpr hd
      have hnb : ¬ (0 < digitsVal (c :: cs) ∧ digitsVal (c :: cs) < 10000000) := by
        omega
      unfold parseBudgetChrono
      simp only [hdata, h1, h2, h3, hrun, hfilter, List.isEmpty_cons,
        Bool.false_eq_true, if_false]
      rw [if_neg hnb]
    · have hpat1 : nlpPat1 (c :: cs) = some (digitsVal (c :: cs)) := by
        unfold nlpPat1
        simp only [hc, if_true, htake, hdrop, commaGroups, List.append_nil]
      have hmult := applyMultipliers_all_digits (c :: cs) hd (digitsVal (c :: cs))
      have hpos : 0 < digitsVal (c :: cs) := by omega
      unfold parseBudgetNlp
      simp only [hdata, hpat1, attemptPattern, hmult, if_pos hpos,
        Option.orElse]

/-- Witness for C7 (amended) at the digit string `"20000000"`. -/
theorem bare_huge_number_budget_parsers_witness :
    (∀ c ∈ ("20000000").data, c.isDigit = true) ∧
    10000000 ≤ digitsVal ("20000000").data ∧
    (parseBudgetChrono (String.mk ("20000000").data) = none ∧
    parseBudgetNlp (String.mk ("20000000").data) =
      some (digitsVal ("20000000").data)) :=
  ⟨by decide, by decide,
   bare_huge_number_budget_parsers ("20000000").data (by decide) (by decide)⟩

end Travel
